import Mathlib

/-!
Verification of the FOIA Stream secure document handling and redaction
pipeline against its specification.  The definitions below are a shallow
embedding of the route handlers in the repository (document access
verification, redaction template registration, PDF info, PDF redaction,
upload scanning) and of the security utilities.  Services whose
implementation is not part of the provided sources are modelled from the
specification and marked as such in their doc comments.
-/

set_option autoImplicit false

namespace FoiaStream

/-! ## Access gate (document route handlers: verifyMfa / verifyPassword)

Translated from the document route handlers: a document is looked up by
id and owner; the per-document policy (requiresMfa, accessPasswordHash)
is consulted; external verification (MFA service / password service) is
an abstract boolean oracle; success issues a signed token payload with
expiry now + 3600 and appends one access log entry; denial returns an
HTTP error response.
-/

/-- Access types recorded in the document access log. -/
inductive AccessType where
  | view
  | download
  | previewRedaction
  | applyRedaction
  | share
  | delete
  deriving DecidableEq, Repr

/-- A secure document row, restricted to the fields the access gate reads. -/
structure SecureDocument where
  id : String
  uploadedBy : String
  requiresMfa : Bool
  accessPasswordHash : Option String
  deriving DecidableEq, Repr

/-- One append-only access log entry (logAccess helper). -/
structure AccessLogEntry where
  documentId : String
  userId : String
  accessType : AccessType
  mfaVerified : Bool
  action : Option String
  deriving DecidableEq, Repr

/-- The JWT payload signed by the handlers on success. -/
structure TokenPayload where
  documentId : String
  userId : String
  mfaVerified : Bool
  passwordVerified : Bool
  exp : Nat
  deriving DecidableEq, Repr

/-- Result of a verification handler: a granted token with its expiresIn
seconds, or an HTTP error status with its message. -/
inductive VerifyResult where
  | ok (token : TokenPayload) (expiresIn : Nat)
  | err (status : Nat) (message : String)
  deriving DecidableEq, Repr

/-- Document lookup used by both handlers: id equality and owner equality. -/
def findDocument (docs : List SecureDocument) (documentId userId : String) :
    Option SecureDocument :=
  docs.find? (fun d => d.id == documentId && d.uploadedBy == userId)

/-- The verifyMfa handler.  The MFA service is the oracle mfaVerify
(userId, code); now is the current Unix time in seconds.  Returns the
response together with the list of access log entries appended during
the call (in order, before the response is returned). -/
def verifyMfa (docs : List SecureDocument) (userId documentId code : String)
    (mfaVerify : String → String → Bool) (now : Nat) :
    VerifyResult × List AccessLogEntry :=
  match findDocument docs documentId userId with
  | none => (.err 404 "Document not found", [])
  | some doc =>
    if !doc.requiresMfa then
      (.err 400 "MFA not required for this document", [])
    else if !mfaVerify userId code then
      (.err 401 "Invalid MFA code", [])
    else
      let token : TokenPayload :=
        { documentId := documentId, userId := userId, mfaVerified := true
          passwordVerified := false, exp := now + 3600 }
      (.ok token 3600,
        [{ documentId := documentId, userId := userId, accessType := .view
           mfaVerified := true, action := some "mfa_verified" }])

/-- The verifyPassword handler.  The password service is the oracle
pwdVerify (password, storedHash). -/
def verifyPassword (docs : List SecureDocument) (userId documentId password : String)
    (pwdVerify : String → String → Bool) (now : Nat) :
    VerifyResult × List AccessLogEntry :=
  match findDocument docs documentId userId with
  | none => (.err 404 "Document not found", [])
  | some doc =>
    match doc.accessPasswordHash with
    | none => (.err 400 "Password not required for this document", [])
    | some hash =>
      if !pwdVerify password hash then
        (.err 401 "Invalid password", [])
      else
        let token : TokenPayload :=
          { documentId := documentId, userId := userId, mfaVerified := false
            passwordVerified := true, exp := now + 3600 }
        (.ok token 3600,
          [{ documentId := documentId, userId := userId, accessType := .view
             mfaVerified := false, action := some "password_verified" }])

/-! ## Redaction template registration (createRedactionTemplate handler) -/

/-- A detection rule as stored inside a custom template. -/
structure RedactionPattern where
  id : String
  label : String
  pattern : String
  category : String
  deriving DecidableEq, Repr

/-- A custom redaction template row. -/
structure CustomTemplate where
  id : String
  userId : String
  name : String
  description : Option String
  category : Option String
  patterns : List RedactionPattern
  isShared : Bool
  deriving DecidableEq, Repr

/-- Response of the createRedactionTemplate handler. -/
inductive CreateTemplateResult where
  | created (id : String) (name : String) (patterns : List RedactionPattern)
      (isShared : Bool)
  | serverError (message : String)
  deriving DecidableEq, Repr

/-- The createRedactionTemplate handler: it inserts the validated payload
into the custom template store and returns 201 Created.  No rule
expression is compiled or inspected at any point. -/
def createRedactionTemplate (store : List CustomTemplate)
    (userId templateId name : String) (description category : Option String)
    (patterns : List RedactionPattern) (isShared : Bool) :
    CreateTemplateResult × List CustomTemplate :=
  let t : CustomTemplate :=
    { id := templateId, userId := userId, name := name
      description := description, category := category
      patterns := patterns, isShared := isShared }
  (.created templateId name patterns isShared, store ++ [t])

/-! ## PDF info handler (getPdfInfo) -/

/-- Raw bytes of a file, as a list of byte values. -/
abbrev Bytes := List Nat

/-- Payload of a successful getPdfInfo response. -/
structure PdfInfoData where
  pageCount : Nat
  version : Option String
  title : Option String
  author : Option String
  isEncrypted : Bool
  hasJavaScript : Bool
  deriving DecidableEq, Repr

/-- Response of the getPdfInfo handler. -/
inductive PdfInfoResult where
  | ok (data : PdfInfoData)
  | badRequest (message : String)
  | serverError (message : String)
  deriving DecidableEq, Repr

/-- The getPdfInfo handler: parsing the uploaded file is embedded as an
Except value; pageCountOf abstracts the page counting of the pdf library.  On
success, every metadata field but pageCount is a constant. -/
def getPdfInfo (file : Except String Bytes) (pageCountOf : Bytes → Nat) :
    PdfInfoResult :=
  match file with
  | .error e => .badRequest e
  | .ok buf =>
      .ok { pageCount := pageCountOf buf, version := none, title := none
            author := none, isEncrypted := false, hasJavaScript := false }

/-! ## Area redaction engine (applyTrueRedactions / getPDFInfo service) -/

/-- A page-relative rectangular redaction area (0-based page index).
Coordinates are in page-relative units, embedded as naturals. -/
structure RedactionArea where
  page : Nat
  x : Nat
  y : Nat
  width : Nat
  height : Nat
  reason : Option String
  deriving DecidableEq, Repr

/-- A positioned piece of text on a page, as seen by structural text
extraction. -/
structure TextItem where
  content : String
  x : Nat
  y : Nat
  width : Nat
  height : Nat
  deriving DecidableEq, Repr

/-- Content of one page of a document: either a vector page carrying a
text layer, or a rasterized (flattened) image carrying no text layer. -/
inductive PageContent where
  | vector (texts : List TextItem)
  | image
  deriving DecidableEq, Repr

/-- A parsed PDF document: its ordered pages. -/
structure PDFDoc where
  pages : List PageContent
  deriving DecidableEq, Repr

/-- Errors of the permanent redaction operation. -/
inductive RedactionError where
  | outOfRange (badIndex : Nat)
  | unprocessable
  deriving DecidableEq, Repr

/-- Result of a successful permanent redaction. -/
structure RedactionResult where
  doc : PDFDoc
  redactionCount : Nat
  flattened : Bool
  deriving DecidableEq, Repr

/-- Does a text item spatially intersect the rectangle of a redaction area
(open-interval overlap on both axes)? -/
def underArea (t : TextItem) (a : RedactionArea) : Bool :=
  decide (t.x < a.x + a.width) && decide (a.x < t.x + t.width) &&
  decide (t.y < a.y + a.height) && decide (a.y < t.y + t.height)

/-- Text items of page i of a document (empty for flattened pages and for
indices past the end). -/
def pageTexts (doc : PDFDoc) (i : Nat) : List TextItem :=
  match doc.pages.getD i .image with
  | .vector ts => ts
  | .image => []

/-- Structural text extraction over a whole document: the contents of
every text item of every vector page, in order.  Flattened pages
contribute nothing. -/
def extractText (doc : PDFDoc) : List String :=
  doc.pages.flatMap (fun p =>
    match p with
    | .vector ts => ts.map (fun t => t.content)
    | .image => [])

/-- Flatten every page (counting from index start) that carries at least
one redaction area, leaving the other pages as-is. -/
def flattenPages (areas : List RedactionArea) : List PageContent → Nat → List PageContent
  | [], _ => []
  | p :: rest, start =>
      (if areas.any (fun a => a.page == start) then PageContent.image else p) ::
        flattenPages areas rest (start + 1)

/-- Modelled from the spec: applyTrueRedactions from the
pdf-true-redaction service, whose implementation file is not among the provided
sources.  Per the spec, the page index of every area is validated against the
page count before any page is processed; the first out-of-range index is
reported in an OutOfRangeError.  Otherwise every page containing at
least one area is rasterized to an image (its text layer discarded),
untouched pages are kept as-is, redactionCount is the number of areas,
and the output is marked flattened. -/
def applyTrueRedactions (doc : PDFDoc) (areas : List RedactionArea) :
    Except RedactionError RedactionResult :=
  match areas.find? (fun a => decide (doc.pages.length ≤ a.page)) with
  | some bad => .error (.outOfRange bad.page)
  | none =>
      .ok { doc := { pages := flattenPages areas doc.pages 0 }
            redactionCount := areas.length, flattened := true }

/-- The applyPermanent operation acting on the stored document: on error
the store is left unchanged, on success the output becomes the stored
document.  Modelled from the all-or-nothing requirement of the spec. -/
def applyPermanentStore (store : PDFDoc) (areas : List RedactionArea) :
    PDFDoc × Except RedactionError RedactionResult :=
  match applyTrueRedactions store areas with
  | .error e => (store, .error e)
  | .ok r => (r.doc, .ok r)

/-! ## Reputation gate (pdf.service scanPDFAsync) -/

/-- Structural validation report of an uploaded document. -/
structure ValidationReport where
  valid : Bool
  isEncrypted : Bool
  hasJavaScript : Bool
  hasEmbeddedFiles : Bool
  version : Option String
  warnings : List String
  errors : List String
  deriving DecidableEq, Repr

/-- Outcome of the external reputation lookup: a definitive verdict, no
record, a transport failure (timeout/unreachable), or the administrative
configuration state in which the external service is disabled. -/
inductive ReputationLookup where
  | definitiveSafe
  | definitiveUnsafe
  | unknownVerdict
  | failure
  | disabled
  deriving DecidableEq, Repr

/-- The virus-scan portion of a gate result. -/
structure VirusScanInfo where
  scanned : Bool
  safe : Bool
  message : String
  hash : String
  deriving DecidableEq, Repr

/-- The full result of a reputation gate scan. -/
structure ScanPDFResult where
  hash : String
  safe : Bool
  canProcess : Bool
  message : String
  validation : ValidationReport
  virusScan : VirusScanInfo
  deriving DecidableEq, Repr

/-- Modelled from the spec: scanPDFAsync from the pdf service (the
reputation gate), whose implementation file is not among the provided
sources.  The hash is computed locally; the external lookup yields one
of the ReputationLookup outcomes.  Fail-closed policy: unknown or failed
lookups are never reported safe and never processable; a definitive
unsafe verdict is unsafe; only a definitive safe verdict, or the
administratively disabled configuration, allows processing of a
structurally valid document. -/
def scanPDF (hash : String) (validation : ValidationReport)
    (lookup : ReputationLookup) : ScanPDFResult :=
  match lookup with
  | .definitiveSafe =>
      { hash := hash, safe := validation.valid, canProcess := validation.valid
        message := "File is safe", validation := validation
        virusScan := { scanned := true, safe := true
                       message := "No threats detected", hash := hash } }
  | .definitiveUnsafe =>
      { hash := hash, safe := false, canProcess := false
        message := "Threat detected", validation := validation
        virusScan := { scanned := true, safe := false
                       message := "Threat detected", hash := hash } }
  | .unknownVerdict =>
      { hash := hash, safe := false, canProcess := false
        message := "Reputation unknown", validation := validation
        virusScan := { scanned := true, safe := false
                       message := "Unknown to reputation service", hash := hash } }
  | .failure =>
      { hash := hash, safe := false, canProcess := false
        message := "Reputation lookup failed", validation := validation
        virusScan := { scanned := false, safe := false
                       message := "Reputation lookup failed", hash := hash } }
  | .disabled =>
      { hash := hash, safe := validation.valid, canProcess := validation.valid
        message := "Reputation service disabled", validation := validation
        virusScan := { scanned := false, safe := validation.valid
                       message := "Reputation service disabled", hash := hash } }

/-! ## Content scanner (auto-redaction service scanText)

Modelled from the spec: the implementation file of the auto-redaction
service is not among the provided sources.  The spec fixes a catalog of named
detection rules (here the two the claims exercise: "email" and "phone"),
case-sensitive deterministic matching, merging of overlapping matches
into single spans, and a redacted-text preview in which each matched
span is replaced by the bracketed label of its rule. -/

/-- A match span: start offset, length, and replacement label. -/
abbrev Span := Nat × Nat × String

/-- Characters that may occur inside an email token. -/
def isEmailChar (c : Char) : Bool :=
  c.isAlpha || c.isDigit || c == '.' || c == '@' || c == '-' || c == '_' || c == '+'

/-- Email matches: maximal runs of email characters that contain an @
sign.  The fuel argument bounds the recursion by the input length. -/
def emailSpansGo : Nat → List Char → Nat → List Span
  | 0, _, _ => []
  | _ + 1, [], _ => []
  | fuel + 1, c :: rest, i =>
    if isEmailChar c then
      let run := c :: rest.takeWhile isEmailChar
      let len := run.length
      (if run.contains '@' then [(i, len, "[EMAIL]")] else []) ++
        emailSpansGo fuel (rest.drop (len - 1)) (i + len)
    else
      emailSpansGo fuel rest (i + 1)

/-- Does the list start with a ddd-ddd-dddd US phone number? -/
def phoneAt : List Char → Bool
  | d1 :: d2 :: d3 :: h1 :: d4 :: d5 :: d6 :: h2 :: d7 :: d8 :: d9 :: d10 :: _ =>
    d1.isDigit && d2.isDigit && d3.isDigit && h1 == '-' &&
    d4.isDigit && d5.isDigit && d6.isDigit && h2 == '-' &&
    d7.isDigit && d8.isDigit && d9.isDigit && d10.isDigit
  | _ => false

/-- Phone matches: every offset at which a ddd-ddd-dddd pattern starts. -/
def phoneSpansGo : List Char → Nat → List Span
  | [], _ => []
  | c :: rest, i =>
    (if phoneAt (c :: rest) then [(i, 12, "[PHONE]")] else []) ++
      phoneSpansGo rest (i + 1)

/-- The rule identifiers exercised by the claims. -/
inductive RuleId where
  | email
  | phone
  deriving DecidableEq, Repr

/-- All match spans of one rule over a character list. -/
def spansForRule (r : RuleId) (chars : List Char) : List Span :=
  match r with
  | .email => emailSpansGo chars.length chars 0
  | .phone => phoneSpansGo chars 0

/-- Name of a rule, as reported in patternsUsed. -/
def ruleName (r : RuleId) : String :=
  match r with
  | .email => "email"
  | .phone => "phone"

/-- Insert a span into a list sorted by start offset. -/
def insertSpan (s : Span) : List Span → List Span
  | [] => [s]
  | t :: rest => if s.1 ≤ t.1 then s :: t :: rest else t :: insertSpan s rest

/-- Insertion sort of spans by start offset. -/
def sortSpans : List Span → List Span
  | [] => []
  | s :: rest => insertSpan s (sortSpans rest)

/-- Merge overlapping spans (sorted by start) into single spans covering
the union of the character ranges.  Fuel bounds the recursion. -/
def mergeSpansGo : Nat → List Span → List Span
  | 0, l => l
  | _ + 1, [] => []
  | _ + 1, [s] => [s]
  | fuel + 1, (s1, l1, lab1) :: (s2, l2, lab2) :: rest =>
    if s2 < s1 + l1 then
      mergeSpansGo fuel ((s1, max (s1 + l1) (s2 + l2) - s1, lab1) :: rest)
    else
      (s1, l1, lab1) :: mergeSpansGo fuel ((s2, l2, lab2) :: rest)

/-- Replace each span (sorted, disjoint, absolute offsets) by its label;
pos is the absolute offset of the head of chars. -/
def spliceSpans : List Char → Nat → List Span → List Char
  | chars, _, [] => chars
  | chars, pos, (s, len, lab) :: rest =>
    chars.take (s - pos) ++ lab.toList ++
      spliceSpans (chars.drop (s - pos + len)) (s + len) rest

/-- Result of a text scan. -/
structure ScanResult where
  redactedText : String
  totalMatches : Nat
  patternsUsed : List (String × Nat)
  deriving DecidableEq, Repr

/-- Modelled from the spec: scanText from the auto-redaction service.  All
selected rules are run over the text, the resulting spans are sorted and
overlapping ones merged, and the redacted preview replaces each final
span by its label. -/
def scanText (text : String) (rules : List RuleId) : ScanResult :=
  let chars := text.toList
  let raw := rules.flatMap (fun r => spansForRule r chars)
  let merged := mergeSpansGo raw.length (sortSpans raw)
  { redactedText := String.mk (spliceSpans chars 0 merged)
    totalMatches := merged.length
    patternsUsed := rules.map (fun r => (ruleName r, (spansForRule r chars).length)) }

/-! ## Security utilities (encryptData / decryptData)

Translated from the security utilities source file.  The node crypto and
encoding primitives (scrypt, AES-256-GCM, utf8, base64) are external
library calls and are abstracted as a bundle of functions; the constants
and the salt:iv:authTag:ciphertext framing belong to the source itself. -/

/-- Length of the random salt prepended to the payload. -/
def SALT_LENGTH : Nat := 32

/-- Length of the random initialization vector. -/
def IV_LENGTH : Nat := 16

/-- Length of the GCM authentication tag. -/
def AUTH_TAG_LENGTH : Nat := 16

/-- External primitives used by encryptData/decryptData.  E is the type
of the encoded output (base64 text in the source). -/
structure CryptoPrims (E : Type) where
  scryptKey : String → Bytes → Bytes
  aesGcmEncrypt : Bytes → Bytes → Bytes → Bytes × Bytes
  aesGcmDecrypt : Bytes → Bytes → Bytes → Bytes → Option Bytes
  utf8Encode : String → Bytes
  utf8Decode : Bytes → String
  base64Encode : Bytes → E
  base64Decode : E → Bytes

/-- The encryptData function: derive a key from the password and a fresh
salt, AES-GCM-encrypt the utf8 plaintext under a fresh iv, and encode
salt ++ iv ++ authTag ++ ciphertext.  The internally generated random
salt and iv are explicit arguments. -/
def encryptData {E : Type} (p : CryptoPrims E) (plaintext encryptionKey : String)
    (salt iv : Bytes) : E :=
  let key := p.scryptKey encryptionKey salt
  let enc := p.aesGcmEncrypt key iv (p.utf8Encode plaintext)
  p.base64Encode (salt ++ iv ++ enc.2 ++ enc.1)

/-- The decryptData function: decode, slice the components at the fixed
offsets, re-derive the key from the extracted salt, and decrypt. -/
def decryptData {E : Type} (p : CryptoPrims E) (encryptedData : E)
    (encryptionKey : String) : Option String :=
  let combined := p.base64Decode encryptedData
  let salt := combined.take SALT_LENGTH
  let iv := (combined.drop SALT_LENGTH).take IV_LENGTH
  let authTag := (combined.drop (SALT_LENGTH + IV_LENGTH)).take AUTH_TAG_LENGTH
  let ciphertext := combined.drop (SALT_LENGTH + IV_LENGTH + AUTH_TAG_LENGTH)
  let key := p.scryptKey encryptionKey salt
  (p.aesGcmDecrypt key iv ciphertext authTag).map p.utf8Decode

/-- A concrete instantiation of the external crypto primitives, used to
exercise the round-trip theorem on a closed input: a trivial keyed
cipher that satisfies the inverse laws, with identity encoding. -/
def witnessPrims : CryptoPrims Bytes where
  scryptKey := fun _ _ => List.replicate 32 0
  aesGcmEncrypt := fun _ _ pt => (pt, List.replicate 16 0)
  aesGcmDecrypt := fun _ _ ct _ => some ct
  utf8Encode := fun s => s.toList.map Char.toNat
  utf8Decode := fun bs => String.mk (bs.map Char.ofNat)
  base64Encode := id
  base64Decode := id

/-! ## Helper lemmas about page flattening and text extraction -/

theorem flattenPages_getD_image (areas : List RedactionArea) :
    ∀ (l : List PageContent) (start j : Nat),
      areas.any (fun a => a.page == start + j) = true →
      (flattenPages areas l start).getD j .image = .image := by
  intro l
  induction l with
  | nil => intro start j _; simp [flattenPages]
  | cons p rest ih =>
    intro start j hany
    cases j with
    | zero =>
      simp only [Nat.add_zero] at hany
      simp [flattenPages, hany]
    | succ j =>
      have hj : areas.any (fun a => a.page == (start + 1) + j) = true := by
        have heq : start + (j + 1) = (start + 1) + j := by omega
        rwa [heq] at hany
      simpa [flattenPages] using ih (start + 1) j hj

theorem mem_extractText_flattenPages (areas : List RedactionArea) (s : String) :
    ∀ (l : List PageContent) (start : Nat),
      s ∈ extractText ⟨flattenPages areas l start⟩ →
      ∃ j, areas.any (fun a => a.page == start + j) = false ∧
        ∃ t ∈ pageTexts ⟨l⟩ j, t.content = s := by
  intro l
  induction l with
  | nil => intro start h; simp [flattenPages, extractText] at h
  | cons p rest ih =>
    intro start h
    simp only [flattenPages, extractText, List.flatMap_cons] at h
    rcases List.mem_append.1 h with hhead | htail
    · by_cases hany : areas.any (fun a => a.page == start) = true
      · simp [hany] at hhead
      · refine ⟨0, by simpa using hany, ?_⟩
        rw [if_neg hany] at hhead
        cases p with
        | image => simp at hhead
        | vector ts =>
          simp only [List.mem_map] at hhead
          obtain ⟨t, ht, hc⟩ := hhead
          exact ⟨t, by simpa [pageTexts], hc⟩
    · obtain ⟨j, hfalse, t, ht, hc⟩ := ih (start + 1) htail
      refine ⟨j + 1, ?_, ⟨t, ?_, hc⟩⟩
      · have heq : start + (j + 1) = (start + 1) + j := by omega
        rwa [heq]
      · simpa [pageTexts] using ht

/-- C1: if any area references a page index outside the page range of the
source document, applyPermanent returns an OutOfRangeError naming the bad
index and the stored document is unchanged (all-or-nothing). -/
theorem C1_applyPermanent_outOfRange_allOrNothing
    (store : PDFDoc) (areas : List RedactionArea)
    (h : ∃ a ∈ areas, store.pages.length ≤ a.page) :
    ∃ bad : RedactionArea, bad ∈ areas ∧ store.pages.length ≤ bad.page ∧
      (applyPermanentStore store areas).2 = .error (.outOfRange bad.page) ∧
      (applyPermanentStore store areas).1 = store := by
  have hsome : (areas.find? (fun a => decide (store.pages.length ≤ a.page))).isSome := by
    apply List.find?_isSome.2
    obtain ⟨a, ha, hle⟩ := h
    exact ⟨a, ha, by simpa using hle⟩
  obtain ⟨bad, hfind⟩ := Option.isSome_iff_exists.1 hsome
  refine ⟨bad, List.mem_of_find?_eq_some hfind,
    by simpa using List.find?_some hfind, ?_, ?_⟩ <;>
    simp [applyPermanentStore, applyTrueRedactions, hfind]

/-- C1 witness: a 3-page document and one area on page 5. -/
theorem C1_applyPermanent_outOfRange_allOrNothing_witness :
    ∃ bad : RedactionArea,
      bad ∈ [({ page := 5, x := 0, y := 0, width := 10, height := 10,
                reason := none } : RedactionArea)] ∧
      (⟨[.vector [], .vector [], .vector []]⟩ : PDFDoc).pages.length ≤ bad.page ∧
      (applyPermanentStore ⟨[.vector [], .vector [], .vector []]⟩
        [{ page := 5, x := 0, y := 0, width := 10, height := 10, reason := none }]).2 =
        .error (.outOfRange bad.page) ∧
      (applyPermanentStore ⟨[.vector [], .vector [], .vector []]⟩
        [{ page := 5, x := 0, y := 0, width := 10, height := 10, reason := none }]).1 =
        ⟨[.vector [], .vector [], .vector []]⟩ :=
  C1_applyPermanent_outOfRange_allOrNothing
    ⟨[.vector [], .vector [], .vector []]⟩
    [{ page := 5, x := 0, y := 0, width := 10, height := 10, reason := none }]
    ⟨{ page := 5, x := 0, y := 0, width := 10, height := 10, reason := none },
      by decide, by decide⟩

/-- C2: on a successful applyPermanent, structural text extraction of the
output yields none of the original text spatially under a redacted
rectangle: every page carrying an area extracts no text at all, and any
string whose every occurrence in the input lies under a redacted
rectangle is absent from the extraction of the output. -/
theorem C2_applyPermanent_irreversibility
    (doc : PDFDoc) (areas : List RedactionArea) (r : RedactionResult)
    (h : applyTrueRedactions doc areas = .ok r) :
    (∀ a ∈ areas, pageTexts r.doc a.page = []) ∧
    (∀ s : String,
      (∀ i t, t ∈ pageTexts doc i → t.content = s →
        ∃ a ∈ areas, a.page = i ∧ underArea t a = true) →
      s ∉ extractText r.doc) := by
  cases hfind : areas.find? (fun a => decide (doc.pages.length ≤ a.page)) with
  | some bad => simp [applyTrueRedactions, hfind] at h
  | none =>
    simp only [applyTrueRedactions, hfind] at h
    have hdoc : r.doc = ⟨flattenPages areas doc.pages 0⟩ := by
      cases h; rfl
    constructor
    · intro a ha
      have hany : areas.any (fun x => x.page == 0 + a.page) = true :=
        List.any_eq_true.2 ⟨a, ha, by simp⟩
      have himg := flattenPages_getD_image areas doc.pages 0 a.page hany
      simp only [List.getD, List.get?_eq_getElem?] at himg
      simp [hdoc, pageTexts, List.getD, himg]
    · intro s hall hmem
      rw [hdoc] at hmem
      obtain ⟨j, hfalse, t, ht, hc⟩ := mem_extractText_flattenPages areas s doc.pages 0 hmem
      obtain ⟨a, ha, hpage, _⟩ := hall j t ht hc
      have htrue : areas.any (fun x => x.page == 0 + j) = true :=
        List.any_eq_true.2 ⟨a, ha, by simp [hpage]⟩
      rw [htrue] at hfalse
      cases hfalse

/-- C3: the reputation gate fails closed: an unknown verdict or a failed
external lookup yields safe = false and canProcess = false, and
canProcess can only be true when a definitive safe verdict was obtained
or the external service is administratively disabled. -/
theorem C3_reputation_gate_fails_closed
    (hash : String) (validation : ValidationReport) (lookup : ReputationLookup) :
    ((lookup = .unknownVerdict ∨ lookup = .failure) →
      (scanPDF hash validation lookup).safe = false ∧
      (scanPDF hash validation lookup).canProcess = false) ∧
    ((scanPDF hash validation lookup).canProcess = true →
      lookup = .definitiveSafe ∨ lookup = .disabled) := by
  cases lookup <;> simp [scanPDF]

/-- C3 witness: a failed lookup on a structurally valid document. -/
theorem C3_reputation_gate_fails_closed_witness :
    (scanPDF "h" ⟨true, false, false, false, none, [], []⟩ .failure).safe = false ∧
    (scanPDF "h" ⟨true, false, false, false, none, [], []⟩ .failure).canProcess = false :=
  (C3_reputation_gate_fails_closed "h" ⟨true, false, false, false, none, [], []⟩
    .failure).1 (Or.inr rfl)

/-- C4 counterexample: evaluating access to a document with requiresMfa
set, using an invalid MFA code, returns the denial with an empty list of
appended access log entries — not exactly one entry as claimed. -/
theorem C4_denied_evaluation_logs_nothing_cex :
    verifyMfa [{ id := "d1", uploadedBy := "u1", requiresMfa := true,
                 accessPasswordHash := none }]
        "u1" "d1" "000000" (fun _ _ => false) 1000 =
      (.err 401 "Invalid MFA code", []) := by
  decide

/-- C4 amended: only successful evaluations append an access log entry —
a successful verifyMfa or verifyPassword appends exactly one entry of
access type view (mfaVerified true for the MFA path, false for the
password path) before the grant is returned, while a denied or failed
evaluation appends none. -/
theorem C4_only_success_appends_log
    (docs : List SecureDocument) (userId documentId code password : String)
    (mfaVerify pwdVerify : String → String → Bool) (now : Nat) :
    (∀ t e l, verifyMfa docs userId documentId code mfaVerify now = (.ok t e, l) →
      l = [{ documentId := documentId, userId := userId, accessType := .view
             mfaVerified := true, action := some "mfa_verified" }]) ∧
    (∀ s m l, verifyMfa docs userId documentId code mfaVerify now = (.err s m, l) →
      l = []) ∧
    (∀ t e l, verifyPassword docs userId documentId password pwdVerify now = (.ok t e, l) →
      l = [{ documentId := documentId, userId := userId, accessType := .view
             mfaVerified := false, action := some "password_verified" }]) ∧
    (∀ s m l, verifyPassword docs userId documentId password pwdVerify now = (.err s m, l) →
      l = []) := by
  refine ⟨?_, ?_, ?_, ?_⟩ <;> intro x y l h <;>
    simp only [verifyMfa, verifyPassword] at h
  all_goals repeat' split at h
  all_goals first
    | rfl
    | (injection h with h1 h2; exact h2.symm)
    | (injection h with h1 h2; cases h1)

/-- C4 witness: a successful MFA evaluation appends exactly the one view
entry with mfaVerified true. -/
theorem C4_only_success_appends_log_witness :
    [({ documentId := "d1", userId := "u1", accessType := .view
        mfaVerified := true, action := some "mfa_verified" } : AccessLogEntry)] =
      [{ documentId := "d1", userId := "u1", accessType := .view
         mfaVerified := true, action := some "mfa_verified" }] :=
  (C4_only_success_appends_log
      [{ id := "d1", uploadedBy := "u1", requiresMfa := true, accessPasswordHash := none }]
      "u1" "d1" "123456" "pw" (fun _ _ => true) (fun _ _ => true) 0).1
    { documentId := "d1", userId := "u1", mfaVerified := true
      passwordVerified := false, exp := 3600 } 3600 _ rfl

/-- C5 counterexample: registering a custom template whose single rule
has the non-compiling matching expression "(" succeeds with 201 Created
and the template, bad rule included, is stored — no InvalidPatternError
is produced and the template is not rejected. -/
theorem C5_invalid_pattern_is_stored_cex :
    createRedactionTemplate [] "u1" "t1" "My Template" none none
        [{ id := "bad", label := "Bad Rule", pattern := "(", category := "custom" }] false =
      (.created "t1" "My Template"
        [{ id := "bad", label := "Bad Rule", pattern := "(", category := "custom" }] false,
       [{ id := "t1", userId := "u1", name := "My Template", description := none
          category := none
          patterns := [{ id := "bad", label := "Bad Rule", pattern := "(", category := "custom" }]
          isShared := false }]) := rfl

/-- C5 amended: custom template registration performs no compilation of
the matching expressions of its rules: for every store and every
payload, including rules that do not compile or match the empty string,
registration returns 201 Created and appends the template, with its
rules stored verbatim, to the store. -/
theorem C5_registration_never_compiles
    (store : List CustomTemplate) (userId templateId name : String)
    (description category : Option String) (patterns : List RedactionPattern)
    (isShared : Bool) :
    createRedactionTemplate store userId templateId name description category
        patterns isShared =
      (.created templateId name patterns isShared,
        store ++ [{ id := templateId, userId := userId, name := name
                    description := description, category := category
                    patterns := patterns, isShared := isShared }]) := rfl

/-- C6: scanning the text "Contact john@example.com or 555-123-4567"
with the email and phone rules selected yields totalMatches = 2 and
redactedText = "Contact [EMAIL] or [PHONE]". -/
theorem C6_concrete_scan_scenario :
    (scanText "Contact john@example.com or 555-123-4567" [.email, .phone]).totalMatches = 2 ∧
    (scanText "Contact john@example.com or 555-123-4567" [.email, .phone]).redactedText =
      "Contact [EMAIL] or [PHONE]" := by
  constructor <;> rfl

/-- C7 counterexample: a denied MFA evaluation and a denied password
evaluation return different messages, so the message reveals which check
failed — there is no single generic invalid-credential message. -/
theorem C7_denial_reveals_failed_check_cex :
    (verifyMfa [{ id := "d1", uploadedBy := "u1", requiresMfa := true,
                  accessPasswordHash := none }]
        "u1" "d1" "badcode" (fun _ _ => false) 0).1 = .err 401 "Invalid MFA code" ∧
    (verifyPassword [{ id := "d2", uploadedBy := "u1", requiresMfa := false,
                       accessPasswordHash := some "h" }]
        "u1" "d2" "badpw" (fun _ _ => false) 0).1 = .err 401 "Invalid password" ∧
    "Invalid MFA code" ≠ "Invalid password" := by
  refine ⟨rfl, rfl, by decide⟩

/-- C7 amended: a denied evaluation returns a message specific to the
check that failed — "Invalid MFA code" when the MFA check fails and
"Invalid password" when the password check fails — and appends no access
log entry at all, so the attempted access type is recorded nowhere. -/
theorem C7_denial_messages_specific
    (docs : List SecureDocument) (userId documentId code password : String)
    (mfaVerify pwdVerify : String → String → Bool) (now : Nat)
    (doc : SecureDocument)
    (hfind : findDocument docs documentId userId = some doc) :
    (doc.requiresMfa = true → mfaVerify userId code = false →
      verifyMfa docs userId documentId code mfaVerify now =
        (.err 401 "Invalid MFA code", [])) ∧
    (∀ hash, doc.accessPasswordHash = some hash → pwdVerify password hash = false →
      verifyPassword docs userId documentId password pwdVerify now =
        (.err 401 "Invalid password", [])) := by
  constructor
  · intro hmfa hv
    simp [verifyMfa, hfind, hmfa, hv]
  · intro hash hph hv
    simp [verifyPassword, hfind, hph, hv]

/-- C7 witness: concrete denied MFA evaluation. -/
theorem C7_denial_messages_specific_witness :
    verifyMfa [{ id := "d1", uploadedBy := "u1", requiresMfa := true,
                 accessPasswordHash := none }]
        "u1" "d1" "x" (fun _ _ => false) 0 = (.err 401 "Invalid MFA code", []) :=
  (C7_denial_messages_specific
      [{ id := "d1", uploadedBy := "u1", requiresMfa := true, accessPasswordHash := none }]
      "u1" "d1" "x" "p" (fun _ _ => false) (fun _ _ => false) 0
      { id := "d1", uploadedBy := "u1", requiresMfa := true, accessPasswordHash := none }
      (by decide)).1 rfl rfl

/-- C8: every successful access gate evaluation (valid MFA code, or valid
secondary password) issues a token whose validity period is exactly one
hour (exp = now + 3600, expiresIn = 3600) and whose scope is the pair of
the requested documentId and the acting userId. -/
theorem C8_grant_token_one_hour_scoped
    (docs : List SecureDocument) (userId documentId code password : String)
    (mfaVerify pwdVerify : String → String → Bool) (now : Nat) :
    (∀ t e l, verifyMfa docs userId documentId code mfaVerify now = (.ok t e, l) →
      t.exp = now + 3600 ∧ e = 3600 ∧ t.documentId = documentId ∧ t.userId = userId) ∧
    (∀ t e l, verifyPassword docs userId documentId password pwdVerify now = (.ok t e, l) →
      t.exp = now + 3600 ∧ e = 3600 ∧ t.documentId = documentId ∧ t.userId = userId) := by
  constructor <;> intro t e l h <;>
    simp only [verifyMfa, verifyPassword] at h
  all_goals repeat' split at h
  all_goals
    injection h with h1 h2
    try cases h1
    try exact ⟨rfl, rfl, rfl, rfl⟩

/-- C8 witness: a concrete successful MFA evaluation at now = 1000. -/
theorem C8_grant_token_one_hour_scoped_witness :
    ({ documentId := "d1", userId := "u1", mfaVerified := true
       passwordVerified := false, exp := 4600 } : TokenPayload).exp = 1000 + 3600 ∧
    3600 = 3600 ∧
    ({ documentId := "d1", userId := "u1", mfaVerified := true
       passwordVerified := false, exp := 4600 } : TokenPayload).documentId = "d1" ∧
    ({ documentId := "d1", userId := "u1", mfaVerified := true
       passwordVerified := false, exp := 4600 } : TokenPayload).userId = "u1" :=
  (C8_grant_token_one_hour_scoped
      [{ id := "d1", uploadedBy := "u1", requiresMfa := true, accessPasswordHash := none }]
      "u1" "d1" "123456" "pw" (fun _ _ => true) (fun _ _ => true) 1000).1
    { documentId := "d1", userId := "u1", mfaVerified := true
      passwordVerified := false, exp := 4600 } 3600 _ rfl

/-- C9: for every document whose upload parses, the getPdfInfo response
reports version, title and author as null, isEncrypted and hasJavaScript
as false, regardless of the document, and only pageCount is derived from
the document. -/
theorem C9_getPdfInfo_constant_metadata (buf : Bytes) (pageCountOf : Bytes → Nat) :
    getPdfInfo (.ok buf) pageCountOf =
      .ok { pageCount := pageCountOf buf, version := none, title := none
            author := none, isEncrypted := false, hasJavaScript := false } := rfl

/-- C2 witness: a one-page document holding the literal "SECRET" covered
by an area; after permanent redaction the extraction of the output does
not contain the literal. -/
theorem C2_applyPermanent_irreversibility_witness :
    ("SECRET" : String) ∉ extractText (⟨[.image]⟩ : PDFDoc) :=
  (C2_applyPermanent_irreversibility
      ⟨[.vector [{ content := "SECRET", x := 10, y := 10, width := 50, height := 10 }]]⟩
      [{ page := 0, x := 0, y := 0, width := 100, height := 100, reason := none }]
      ⟨⟨[.image]⟩, 1, true⟩ rfl).2 "SECRET"
    (by
      intro i t ht hc
      cases i with
      | zero =>
        simp [pageTexts] at ht
        subst ht
        exact ⟨{ page := 0, x := 0, y := 0, width := 100, height := 100, reason := none },
          by decide, by decide, by decide⟩
      | succ n => simp [pageTexts, List.getD] at ht)

/-- C10: decrypting the result of encryptData with the same key returns
the original plaintext, for every plaintext, key, random salt of the
configured salt length and random iv of the configured iv length,
assuming the external primitives satisfy their inverse laws (base64
decode inverts encode, utf8 decode inverts encode, AES-GCM decryption
inverts encryption, and the authentication tag has the configured
length). -/
theorem C10_decrypt_encrypt_roundtrip {E : Type} (p : CryptoPrims E)
    (plaintext encryptionKey : String) (salt iv : Bytes)
    (hb64 : ∀ bs : Bytes, p.base64Decode (p.base64Encode bs) = bs)
    (hutf : ∀ s : String, p.utf8Decode (p.utf8Encode s) = s)
    (hgcm : ∀ k v pt,
      p.aesGcmDecrypt k v (p.aesGcmEncrypt k v pt).1 (p.aesGcmEncrypt k v pt).2 = some pt)
    (htag : ∀ k v pt, (p.aesGcmEncrypt k v pt).2.length = AUTH_TAG_LENGTH)
    (hsalt : salt.length = SALT_LENGTH) (hiv : iv.length = IV_LENGTH) :
    decryptData p (encryptData p plaintext encryptionKey salt iv) encryptionKey =
      some plaintext := by
  have henc := hgcm (p.scryptKey encryptionKey salt) iv (p.utf8Encode plaintext)
  simp only [encryptData, decryptData, hb64]
  have h1 : ∀ rest : Bytes, (salt ++ rest).take SALT_LENGTH = salt :=
    fun rest => List.take_left' hsalt
  have h1d : ∀ rest : Bytes, (salt ++ rest).drop SALT_LENGTH = rest :=
    fun rest => List.drop_left' hsalt
  have h2 : ∀ rest : Bytes, (iv ++ rest).take IV_LENGTH = iv :=
    fun rest => List.take_left' hiv
  rw [List.append_assoc, List.append_assoc]
  rw [h1, h1d, h2]
  have h3 : (salt ++ (iv ++
        ((p.aesGcmEncrypt (p.scryptKey encryptionKey salt) iv (p.utf8Encode plaintext)).2 ++
         (p.aesGcmEncrypt (p.scryptKey encryptionKey salt) iv (p.utf8Encode plaintext)).1))).drop
      (SALT_LENGTH + IV_LENGTH) =
      (p.aesGcmEncrypt (p.scryptKey encryptionKey salt) iv (p.utf8Encode plaintext)).2 ++
      (p.aesGcmEncrypt (p.scryptKey encryptionKey salt) iv (p.utf8Encode plaintext)).1 := by
    rw [← List.append_assoc]
    exact List.drop_left' (by rw [List.length_append, hsalt, hiv])
  have h4 : (salt ++ (iv ++
        ((p.aesGcmEncrypt (p.scryptKey encryptionKey salt) iv (p.utf8Encode plaintext)).2 ++
         (p.aesGcmEncrypt (p.scryptKey encryptionKey salt) iv (p.utf8Encode plaintext)).1))).drop
      (SALT_LENGTH + IV_LENGTH + AUTH_TAG_LENGTH) =
      (p.aesGcmEncrypt (p.scryptKey encryptionKey salt) iv (p.utf8Encode plaintext)).1 := by
    rw [show salt ++ (iv ++
        ((p.aesGcmEncrypt (p.scryptKey encryptionKey salt) iv (p.utf8Encode plaintext)).2 ++
         (p.aesGcmEncrypt (p.scryptKey encryptionKey salt) iv (p.utf8Encode plaintext)).1)) =
        (salt ++ iv ++
         (p.aesGcmEncrypt (p.scryptKey encryptionKey salt) iv (p.utf8Encode plaintext)).2) ++
        (p.aesGcmEncrypt (p.scryptKey encryptionKey salt) iv (p.utf8Encode plaintext)).1 from by
      simp [List.append_assoc]]
    exact List.drop_left' (by
      rw [List.length_append, List.length_append, hsalt, hiv, htag])
  rw [h3, h4, List.take_left' (htag _ _ _), henc, Option.map_some']
  rw [hutf]

/-- C10 witness: the round trip on a concrete plaintext and key with the
trivial primitive instantiation. -/
theorem C10_decrypt_encrypt_roundtrip_witness :
    decryptData witnessPrims
        (encryptData witnessPrims "attack at dawn" "passphrase"
          (List.replicate 32 0) (List.replicate 16 0)) "passphrase" =
      some "attack at dawn" :=
  C10_decrypt_encrypt_roundtrip witnessPrims "attack at dawn" "passphrase"
    (List.replicate 32 0) (List.replicate 16 0)
    (fun _ => rfl)
    (by
      intro s
      show String.mk ((s.toList.map Char.toNat).map Char.ofNat) = s
      rw [List.map_map]
      have hcomp : (Char.ofNat ∘ Char.toNat) = id := funext Char.ofNat_toNat
      rw [hcomp, List.map_id]
      cases s
      rfl)
    (fun _ _ _ => rfl)
    (fun _ _ _ => by simp [witnessPrims, AUTH_TAG_LENGTH])
    (by simp [SALT_LENGTH])
    (by simp [IV_LENGTH])

end FoiaStream
